import Mathlib

/-!
Verification development for the Text_Summarizer repository
(`src/main.py`, the FastAPI endpoint, and `src/app.py`, the Streamlit form).
Python functions are shallowly embedded as Lean functions; the external
Gemini provider is modelled as an oracle mapping the prompt string to an
outcome (a structured response or a raised exception), and Python
exceptions are modelled as explicit outcome constructors.
-/

namespace TextSummarizer

/-- Python's `str.strip()` on a character list: drop whitespace from both ends. -/
def pyStripChars (l : List Char) : List Char :=
  ((l.dropWhile Char.isWhitespace).reverse.dropWhile Char.isWhitespace).reverse

/-- Python's `str.strip()` on a string (as used by `response.text.strip()` and
`input_text.strip()` in the source). -/
def pyStrip (s : String) : String :=
  String.mk (pyStripChars s.data)

/-- A string has no leading and no trailing whitespace character. -/
def noEdgeWhitespace (s : String) : Prop :=
  (∀ c, s.data.head? = some c → c.isWhitespace = false) ∧
  (∀ c, s.data.getLast? = some c → c.isWhitespace = false)

/-- `sub` occurs verbatim inside `s`. -/
def containsStr (s sub : String) : Prop :=
  ∃ pre post, s = pre ++ sub ++ post

/-- A provider block reason: the code probes a `name` attribute first and a
`value` attribute second (`hasattr` checks in both source files). -/
structure BlockReason where
  name? : Option String
  value? : Option String
deriving DecidableEq

/-- `response.prompt_feedback`: may or may not carry a block reason. -/
structure PromptFeedback where
  blockReason? : Option BlockReason
deriving DecidableEq

/-- A structured (non-raising) provider response: a list of content parts and
optional prompt feedback. -/
structure ProviderResponse where
  parts : List String
  promptFeedback? : Option PromptFeedback
deriving DecidableEq

/-- `response.text`: the concatenated text of the content parts. -/
def ProviderResponse.text (r : ProviderResponse) : String :=
  String.join r.parts

/-- The block reason carried by a response, if any (`response.prompt_feedback
and response.prompt_feedback.block_reason` in the source). -/
def ProviderResponse.blockReason? (r : ProviderResponse) : Option BlockReason :=
  match r.promptFeedback? with
  | some pf => pf.blockReason?
  | none => none

/-- Outcome of one provider call: either a structured response or a raised
exception (carrying `str(e)`). -/
inductive ProviderOutcome where
  | reply (r : ProviderResponse)
  | exn (e : String)
deriving DecidableEq

/-- The summarization prompt built identically in `src/main.py` (lines 55-66)
and `src/app.py` (lines 73-84). -/
def buildPrompt (text : String) (target : Int) : String :=
  "Please summarize the following text concisely.\n" ++
  "Aim for a summary of approximately " ++ toString target ++ " words.\n" ++
  "Do not start the summary with phrases like \"Here is a summary of the text:\" or \"The text is about:\".\n" ++
  "Just provide the direct summary.\n\nText to summarize:\n---\n" ++
  text ++ "\n---\n\nSummary:\n"

/-- `block_reason_name` computation shared by both source files: the `name`
attribute if present, else `str(value)` if present, else `"Unknown"`. -/
def blockReasonName (br : BlockReason) : String :=
  match br.name? with
  | some n => n
  | none =>
    match br.value? with
    | some v => v
    | none => "Unknown"

/-! ### src/app.py: the Streamlit form's summarize function -/

/-- `summarize_with_gemini` from `src/app.py` (lines 66-108).  The provider
call `model.generate_content(prompt, ...)` is the oracle applied to the built
prompt; the trailing `except Exception` returns
`f"Error during summarization: {str(e)}"`. -/
def summarize_with_gemini (text_to_summarize : String) (target_word_count_gemini : Int)
    (gemini_configured : Bool) (provider : String → ProviderOutcome) : String :=
  if gemini_configured = false then "Error: Gemini API not configured."
  else
    match provider (buildPrompt text_to_summarize target_word_count_gemini) with
    | .exn e => "Error during summarization: " ++ e
    | .reply r =>
      match r.parts with
      | [] =>
        match r.promptFeedback? with
        | some pf =>
          match pf.blockReason? with
          | some br => "Error: Content blocked by Gemini due to: " ++ blockReasonName br ++ "."
          | none => "Error: Unexpected response from Gemini API. Check logs."
        | none => "Error: Unexpected response from Gemini API. Check logs."
      | _ :: _ =>
        let summary := pyStrip r.text
        if summary = "" then
          "Error: Gemini returned an empty summary. The input might be too short or unclear."
        else summary

/-- The spec's error taxonomy (spec section 7) for outcomes reachable from the
summarize function. -/
inductive ErrorCategory where
  | Blocked
  | EmptyOutput
  | UnexpectedResponse
  | TransportOrProviderError
  | NotConfigured
deriving DecidableEq

/-- The spec's `SummarizationResult` tagged variant (spec section 3): exactly
one of `Success` or `Failure`. -/
inductive SummarizationResult where
  | Success (summary : String)
  | Failure (category : ErrorCategory) (message : String)
deriving DecidableEq

/-- The string `summarize_with_gemini` hands back for a given result: the
summary itself on success, the error message on failure. -/
def SummarizationResult.render : SummarizationResult → String
  | .Success s => s
  | .Failure _ m => m

def SummarizationResult.isSuccess : SummarizationResult → Bool
  | .Success _ => true
  | .Failure _ _ => false

def SummarizationResult.isFailure : SummarizationResult → Bool
  | .Success _ => false
  | .Failure _ _ => true

/-- Modelled from the spec: the tagged-variant classification of
`summarize_with_gemini`'s branches (spec sections 3, 4.2), used to relate the
string-encoded source function to the spec's `Success | Failure` result. -/
def classifyOutcome (gemini_configured : Bool) (o : ProviderOutcome) : SummarizationResult :=
  if gemini_configured = false then
    .Failure .NotConfigured "Error: Gemini API not configured."
  else
    match o with
    | .exn e => .Failure .TransportOrProviderError ("Error during summarization: " ++ e)
    | .reply r =>
      match r.parts with
      | [] =>
        match r.promptFeedback? with
        | some pf =>
          match pf.blockReason? with
          | some br =>
            .Failure .Blocked ("Error: Content blocked by Gemini due to: " ++ blockReasonName br ++ ".")
          | none => .Failure .UnexpectedResponse "Error: Unexpected response from Gemini API. Check logs."
        | none => .Failure .UnexpectedResponse "Error: Unexpected response from Gemini API. Check logs."
      | _ :: _ =>
        if pyStrip r.text = "" then
          .Failure .EmptyOutput "Error: Gemini returned an empty summary. The input might be too short or unclear."
        else .Success (pyStrip r.text)

/-! ### src/main.py: the FastAPI endpoint -/

/-- The request body of `POST /summarize` (`TextToSummarize`, lines 32-34 of
`src/main.py`). -/
structure TextToSummarize where
  text : String
  target_word_count : Int := 75
deriving DecidableEq

/-- The success response body (`SummaryResponse`, lines 36-38). -/
structure SummaryResponse where
  original_text : String
  summary : String
deriving DecidableEq

/-- What the endpoint delivers to the HTTP client: a 200 body or an error
status with a `detail` message. -/
inductive EndpointResult where
  | ok (resp : SummaryResponse)
  | error (status : Nat) (detail : String)
deriving DecidableEq

/-- Python truthiness of the `GOOGLE_API_KEY` value (`if not GOOGLE_API_KEY`):
false for `None` and for the empty string. -/
def keyTruthy : Option String → Bool
  | none => false
  | some s => if s = "" then false else true

/-- Control flow of the `try:` block of `summarize_text_gemini`
(`src/main.py` lines 49-110): it either returns a `SummaryResponse`, raises an
`HTTPException` itself (the 400 for blocked content, the 500s for
empty/unexpected responses), or lets a provider exception escape. -/
inductive TryOutcome where
  | returned (resp : SummaryResponse)
  | httpRaised (status : Nat) (detail : String)
  | exnRaised (e : String)
deriving DecidableEq

/-- The body of the `try:` block of `summarize_text_gemini`. -/
def summarizeTryBody (payload : TextToSummarize) (provider : String → ProviderOutcome) :
    TryOutcome :=
  match provider (buildPrompt payload.text payload.target_word_count) with
  | .exn e => .exnRaised e
  | .reply r =>
    match r.parts with
    | [] =>
      match r.promptFeedback? with
      | some pf =>
        match pf.blockReason? with
        | some br =>
          .httpRaised 400 ("Content blocked by Gemini due to: " ++ blockReasonName br ++
            ". The input text might violate safety policies.")
        | none =>
          .httpRaised 500 "Error processing summary from Gemini API: Empty or unexpected response."
      | none =>
        .httpRaised 500 "Error processing summary from Gemini API: Empty or unexpected response."
    | _ :: _ =>
      let summary := pyStrip r.text
      if summary = "" then
        .httpRaised 500 "Gemini API returned an empty summary. Try rephrasing input or check model."
      else .returned ⟨payload.text, summary⟩

/-- The fixed detail of the catch-all 500 (`src/main.py` line 116). -/
def genericDetail : String :=
  "An internal server error occurred while contacting the Gemini API."

/-- The detail of the missing-credential 500 (`src/main.py` line 47). -/
def keyMissingDetail : String :=
  "Google API Key not configured or configuration failed at startup."

/-- `summarize_text_gemini` from `src/main.py` (lines 42-116), as observed by
the HTTP client.  FastAPI's `HTTPException` subclasses `Exception`, so every
`HTTPException` raised inside the `try:` block is itself caught by the
trailing `except Exception` (line 112), which re-raises the generic 500; only
the pre-`try` missing-key 500 escapes untouched. -/
def summarize_text_gemini (apiKey : Option String) (payload : TextToSummarize)
    (provider : String → ProviderOutcome) : EndpointResult :=
  if keyTruthy apiKey = false then .error 500 keyMissingDetail
  else
    match summarizeTryBody payload provider with
    | .returned resp => .ok resp
    | .httpRaised _ _ => .error 500 genericDetail
    | .exnRaised _ => .error 500 genericDetail

/-- How many times `summarize_text_gemini` invokes the provider for one
request: the call at line 78 of `src/main.py` happens whenever the key check
at line 46 passes — the endpoint performs no validation of `payload.text`. -/
def mainProviderCalls (apiKey : Option String) (_payload : TextToSummarize) : Nat :=
  if keyTruthy apiKey = false then 0 else 1

/-! ### Startup / credential resolution -/

/-- The process environment seen by `src/main.py` at startup. -/
structure MainEnv where
  googleApiKeyEnv? : Option String
  configureRaises : Bool
deriving DecidableEq

/-- The value of the module-level `GOOGLE_API_KEY` after the startup block of
`src/main.py` (lines 11-22): left as read when falsy (only an error is
printed), set to `None` when `genai.configure` raises. -/
def mainStartupKey (env : MainEnv) : Option String :=
  if keyTruthy env.googleApiKeyEnv? = false then env.googleApiKeyEnv?
  else if env.configureRaises then none else env.googleApiKeyEnv?

/-- Whether `src/main.py` goes on to serve requests after startup: always —
the FastAPI app is constructed unconditionally (line 25); a missing key only
prints an error (lines 13-15, including the comment that a real app "might
raise a more specific startup error or exit"). -/
def mainServes (_ : MainEnv) : Bool := true

/-- The process environment seen by `src/app.py` at startup. -/
structure AppEnv where
  serverSoftware : String
  streamlitServerPort? : Option String
  streamlitSharingMode? : Option String
  secrets : List (String × String)
  dotenvGoogleApiKey? : Option String
deriving DecidableEq

/-- Python's `str.startswith` (used on `SERVER_SOFTWARE`), as a prefix test on
the character lists. -/
def pyStartsWith (s p : String) : Bool :=
  p.data.isPrefixOf s.data

/-- `is_streamlit_cloud` from `src/app.py` (lines 26-28). -/
def is_streamlit_cloud (env : AppEnv) : Bool :=
  pyStartsWith env.serverSoftware "Streamlit" ||
  env.streamlitServerPort?.isSome ||
  (match env.streamlitSharingMode? with
   | some v => if v = "true" then true else false
   | none => false)

/-- Result of the credential-resolution block of `src/app.py`: either the app
proceeds with a key, or `st.stop()` halts it with an error message. -/
inductive StartupOutcome where
  | proceed (key : String)
  | stopped (message : String)
deriving DecidableEq

/-- The error message of `src/app.py` line 38. -/
def secretsMissingMsg : String :=
  "Google API Key (GOOGLE_GEMINI_API_KEY) not found in Streamlit secrets. Please set it for the deployed app."

/-- The error message of `src/app.py` line 49. -/
def dotenvMissingMsg : String :=
  "GOOGLE_API_KEY not found in your local .env file. Please create or check your .env file."

/-- The credential-resolution block of `src/app.py` (lines 26-50): on
Streamlit Cloud only `st.secrets["GOOGLE_GEMINI_API_KEY"]` is consulted
(membership test, line 34); locally only the `GOOGLE_API_KEY` environment
variable is consulted (truthiness test, line 44).  A miss in the consulted
source is `st.stop()`; the other source is never read. -/
def gemini_api_key_resolution (env : AppEnv) : StartupOutcome :=
  if is_streamlit_cloud env then
    match env.secrets.lookup "GOOGLE_GEMINI_API_KEY" with
    | some v => .proceed v
    | none => .stopped secretsMissingMsg
  else
    match env.dotenvGoogleApiKey? with
    | some v => if v = "" then .stopped dotenvMissingMsg else .proceed v
    | none => .stopped dotenvMissingMsg

/-- How many times the button handler of `src/app.py` (lines 130-145) invokes
the provider for one submission: `summarize_with_gemini` (one provider call
when configured) runs only when `gemini_configured` holds and
`input_text.strip()` is non-empty. -/
def appButtonProviderCalls (gemini_configured : Bool) (input_text : String) : Nat :=
  if gemini_configured = false then 0
  else if pyStrip input_text = "" then 0
  else 1

/-! ### Helper lemmas about `pyStrip` -/

theorem head?_dropWhile_false {α : Type} (p : α → Bool) (l : List α) :
    ∀ c, (l.dropWhile p).head? = some c → p c = false := by
  induction l with
  | nil => intro c h; simp [List.dropWhile] at h
  | cons a t ih =>
    intro c h
    rw [List.dropWhile_cons] at h
    by_cases hp : p a
    · rw [if_pos hp] at h
      exact ih c h
    · rw [if_neg hp] at h
      simp only [List.head?_cons, Option.some.injEq] at h
      subst h
      simpa using hp

theorem getLast?_dropWhile_of_ne_nil {α : Type} (p : α → Bool) (l : List α)
    (h : l.dropWhile p ≠ []) : (l.dropWhile p).getLast? = l.getLast? := by
  induction l with
  | nil => simp [List.dropWhile] at h
  | cons a t ih =>
    rw [List.dropWhile_cons] at h ⊢
    by_cases hp : p a
    · rw [if_pos hp] at h ⊢
      have ht : t ≠ [] := by
        rintro rfl
        simp [List.dropWhile] at h
      obtain ⟨b, t', rfl⟩ := List.exists_cons_of_ne_nil ht
      rw [ih h, List.getLast?_cons_cons]
    · rw [if_neg hp]

theorem pyStrip_noEdgeWhitespace (s : String) : noEdgeWhitespace (pyStrip s) := by
  constructor
  · intro c hc
    have hdata : (pyStrip s).data = pyStripChars s.data := rfl
    rw [hdata] at hc
    unfold pyStripChars at hc
    rw [List.head?_reverse] at hc
    set m := (s.data.dropWhile Char.isWhitespace).reverse with hm
    have hne : m.dropWhile Char.isWhitespace ≠ [] := by
      intro hnil
      rw [hnil] at hc
      simp at hc
    rw [getLast?_dropWhile_of_ne_nil _ _ hne] at hc
    rw [hm, List.getLast?_reverse] at hc
    exact head?_dropWhile_false _ _ c hc
  · intro c hc
    have hdata : (pyStrip s).data = pyStripChars s.data := rfl
    rw [hdata] at hc
    unfold pyStripChars at hc
    rw [List.getLast?_reverse] at hc
    exact head?_dropWhile_false _ _ c hc

/-! ### Claim theorems -/

/-- C7: for every provider response that carries content parts whose text is
non-whitespace, summarize returns Success whose summary equals that text
trimmed, with no leading or trailing whitespace — in `src/app.py` the returned
string is the trimmed text, in `src/main.py` the endpoint answers 200 with the
trimmed text as `summary`. -/
theorem c7_success_trimmed (r : ProviderResponse) (hp : r.parts ≠ [])
    (ht : pyStrip r.text ≠ "") (t : String) (k : Int) (key : String) (hk : key ≠ "")
    (p : TextToSummarize) :
    summarize_with_gemini t k true (fun _ => .reply r) = pyStrip r.text ∧
    classifyOutcome true (.reply r) = .Success (pyStrip r.text) ∧
    summarize_text_gemini (some key) p (fun _ => .reply r) = .ok ⟨p.text, pyStrip r.text⟩ ∧
    noEdgeWhitespace (pyStrip r.text) := by
  obtain ⟨parts, fb⟩ := r
  obtain ⟨a, rest, rfl⟩ := List.exists_cons_of_ne_nil hp
  refine ⟨?_, ?_, ?_, pyStrip_noEdgeWhitespace _⟩
  · simp [summarize_with_gemini, ht]
  · simp [classifyOutcome, ht]
  · simp [summarize_text_gemini, keyTruthy, hk, summarizeTryBody, ht]

/-- C8: for every provider response that carries content parts whose text is
empty or all-whitespace after trimming, summarize returns Failure(EmptyOutput)
— the fixed empty-summary error of `src/app.py` line 93 — and never Success
(in particular never Success with an empty string). -/
theorem c8_empty_output_failure (r : ProviderResponse) (hp : r.parts ≠ [])
    (ht : pyStrip r.text = "") (t : String) (k : Int) :
    summarize_with_gemini t k true (fun _ => .reply r) =
      "Error: Gemini returned an empty summary. The input might be too short or unclear." ∧
    classifyOutcome true (.reply r) =
      .Failure .EmptyOutput
        "Error: Gemini returned an empty summary. The input might be too short or unclear." ∧
    (∀ s, classifyOutcome true (.reply r) ≠ .Success s) := by
  obtain ⟨parts, fb⟩ := r
  obtain ⟨a, rest, rfl⟩ := List.exists_cons_of_ne_nil hp
  refine ⟨?_, ?_, ?_⟩
  · simp [summarize_with_gemini, ht]
  · simp [classifyOutcome, ht]
  · intro s
    simp [classifyOutcome, ht]

/-- C9: for every provider response with no content parts — if it carries a
block reason, summarize returns Failure(Blocked) whose message contains the
block reason's name (the `name` attribute, else the `value` attribute, else
"Unknown", per `blockReasonName`); if it carries no block reason, summarize
returns Failure(UnexpectedResponse). -/
theorem c9_blocked_or_unexpected (r : ProviderResponse) (hp : r.parts = [])
    (t : String) (k : Int) :
    (∀ br, r.blockReason? = some br →
      summarize_with_gemini t k true (fun _ => .reply r) =
        "Error: Content blocked by Gemini due to: " ++ blockReasonName br ++ "." ∧
      classifyOutcome true (.reply r) =
        .Failure .Blocked
          ("Error: Content blocked by Gemini due to: " ++ blockReasonName br ++ ".") ∧
      containsStr ("Error: Content blocked by Gemini due to: " ++ blockReasonName br ++ ".")
        (blockReasonName br)) ∧
    (r.blockReason? = none →
      summarize_with_gemini t k true (fun _ => .reply r) =
        "Error: Unexpected response from Gemini API. Check logs." ∧
      classifyOutcome true (.reply r) =
        .Failure .UnexpectedResponse "Error: Unexpected response from Gemini API. Check logs.") ∧
    (∀ n v, blockReasonName ⟨some n, v⟩ = n) ∧
    (∀ v, blockReasonName ⟨none, some v⟩ = v) ∧
    (blockReasonName ⟨none, none⟩ = "Unknown") := by
  obtain ⟨parts, fb⟩ := r
  subst hp
  refine ⟨?_, ?_, fun n v => rfl, fun v => rfl, rfl⟩
  · intro br hbr
    match fb with
    | none => simp [ProviderResponse.blockReason?] at hbr
    | some pf =>
      simp only [ProviderResponse.blockReason?] at hbr
      refine ⟨?_, ?_, ?_⟩
      · simp [summarize_with_gemini, hbr]
      · simp [classifyOutcome, hbr]
      · exact ⟨"Error: Content blocked by Gemini due to: ", ".", rfl⟩
  · intro hbr
    match fb with
    | none => simp [summarize_with_gemini, classifyOutcome]
    | some pf =>
      simp only [ProviderResponse.blockReason?] at hbr
      simp [summarize_with_gemini, classifyOutcome, hbr]

/-- C6: for every non-empty input text and any target_word_count in the
accepted range (the 20-250 slider), summarize returns exactly one of Success
or Failure — the string `summarize_with_gemini` hands back is the rendering of
a single `SummarizationResult`, every provider outcome (reply or raised
exception) included, so nothing throws past the function's boundary. -/
theorem c6_exactly_one_result (t : String) (ht : pyStrip t ≠ "") (k : Int)
    (hk : 20 ≤ k ∧ k ≤ 250) (o : ProviderOutcome) :
    summarize_with_gemini t k true (fun _ => o) = (classifyOutcome true o).render ∧
    ((classifyOutcome true o).isSuccess = true ↔ (classifyOutcome true o).isFailure = false) := by
  constructor
  · match o with
    | .exn e => simp [summarize_with_gemini, classifyOutcome, SummarizationResult.render]
    | .reply r =>
      obtain ⟨parts, fb⟩ := r
      match parts with
      | [] =>
        match fb with
        | none => simp [summarize_with_gemini, classifyOutcome, SummarizationResult.render]
        | some pf =>
          cases hbr : pf.blockReason? <;>
            simp [summarize_with_gemini, classifyOutcome, SummarizationResult.render, hbr]
      | a :: rest =>
        by_cases hs : pyStrip (ProviderResponse.text ⟨a :: rest, fb⟩) = "" <;>
          simp [summarize_with_gemini, classifyOutcome, SummarizationResult.render, hs]
  · match h : classifyOutcome true o with
    | .Success s => simp [SummarizationResult.isSuccess, SummarizationResult.isFailure]
    | .Failure c m => simp [SummarizationResult.isSuccess, SummarizationResult.isFailure]

/-- C10: for every endpoint request that reaches the provider call, every
failure outcome constructed inside the handler's `try:` block — the 400 built
for blocked content and the specific empty-output and unexpected-response
500s, as well as any provider exception — is delivered to the client as a 500
with the same fixed generic detail, because the trailing `except Exception` of
`src/main.py` intercepts the `HTTPException`s the handler raised itself. -/
theorem c10_handler_failures_become_generic_500 (key : Option String)
    (p : TextToSummarize) (provider : String → ProviderOutcome)
    (hk : keyTruthy key = true) :
    (∀ st d, summarizeTryBody p provider = .httpRaised st d →
      summarize_text_gemini key p provider = .error 500 genericDetail) ∧
    (∀ e, summarizeTryBody p provider = .exnRaised e →
      summarize_text_gemini key p provider = .error 500 genericDetail) := by
  constructor
  · intro st d h
    simp [summarize_text_gemini, hk, h]
  · intro e h
    simp [summarize_text_gemini, hk, h]

/-- C1 (code behavior at the failing input): a request whose provider response
carries no content parts and a block reason named "SAFETY" is answered with
status 500 and the fixed generic detail — not the 400 carrying the block
reason that line 96 of `src/main.py` constructs, because the trailing
`except Exception` swallows it. -/
theorem c1_blocked_request_delivered_as_500 :
    summarize_text_gemini (some "test-key") ⟨"hello world", 75⟩
      (fun _ => .reply ⟨[], some ⟨some ⟨some "SAFETY", none⟩⟩⟩) =
      .error 500 genericDetail ∧
    summarizeTryBody ⟨"hello world", 75⟩
      (fun _ => .reply ⟨[], some ⟨some ⟨some "SAFETY", none⟩⟩⟩) =
      .httpRaised 400
        "Content blocked by Gemini due to: SAFETY. The input text might violate safety policies." := by
  exact ⟨rfl, rfl⟩

/-- C2 (counterexample): in `src/app.py`, a provider exception whose
`str(e)` is "ConnectionError: boom42" yields the user-facing message
"Error during summarization: ConnectionError: boom42" — the raw exception
string appears verbatim in the client-facing message, so the claim that the
message is sanitized for every input fails on the form frontend. -/
theorem c2_counterexample_exception_text_leaks :
    containsStr
      (summarize_with_gemini "some text" 75 true (fun _ => .exn "ConnectionError: boom42"))
      "ConnectionError: boom42" :=
  ⟨"Error during summarization: ", "", rfl⟩

/-- C2 (amended): only the endpoint sanitizes — for every provider exception,
`src/main.py` answers with the fixed generic 500 detail, independent of the
exception text, while `src/app.py`'s summarize function returns a message
embedding the raw exception string verbatim. -/
theorem c2_amended_sanitization (key : String) (hk : key ≠ "")
    (p : TextToSummarize) (e : String) (t : String) (k : Int) :
    summarize_text_gemini (some key) p (fun _ => .exn e) = .error 500 genericDetail ∧
    summarize_with_gemini t k true (fun _ => .exn e) = "Error during summarization: " ++ e := by
  constructor
  · simp [summarize_text_gemini, keyTruthy, hk, summarizeTryBody]
  · simp [summarize_with_gemini]

/-- C3 (counterexample): with no `GOOGLE_API_KEY` in the environment,
`src/main.py` still proceeds to serve (the FastAPI app is constructed
unconditionally) and every request then fails per-request with a 500
configuration error — contradicting "the process does not proceed to serve
any request: a hard stop at startup, never a per-request failure". -/
theorem c3_counterexample_endpoint_serves_without_key :
    mainServes ⟨none, false⟩ = true ∧
    mainStartupKey ⟨none, false⟩ = none ∧
    summarize_text_gemini (mainStartupKey ⟨none, false⟩) ⟨"hello", 75⟩
      (fun _ => .reply ⟨["S"], none⟩) = .error 500 keyMissingDetail :=
  ⟨rfl, rfl, rfl⟩

/-- C3 (amended): when neither credential source yields a value, the Streamlit
frontend (`src/app.py`) halts at startup via `st.stop()`, while the endpoint
(`src/main.py`) proceeds to serve and answers every request with a 500
missing-credential error — a per-request failure, not a hard stop. -/
theorem c3_amended_startup_behavior (e : AppEnv) (me : MainEnv)
    (hsec : e.secrets.lookup "GOOGLE_GEMINI_API_KEY" = none)
    (henv : e.dotenvGoogleApiKey? = none)
    (hme : me.googleApiKeyEnv? = none) :
    (∃ msg, gemini_api_key_resolution e = .stopped msg) ∧
    mainServes me = true ∧
    mainStartupKey me = none ∧
    (∀ p provider, summarize_text_gemini (mainStartupKey me) p provider =
      .error 500 keyMissingDetail) := by
  have hkey : mainStartupKey me = none := by
    simp [mainStartupKey, hme, keyTruthy]
  refine ⟨?_, rfl, hkey, ?_⟩
  · by_cases hc : is_streamlit_cloud e
    · exact ⟨secretsMissingMsg, by simp [gemini_api_key_resolution, hc, hsec]⟩
    · exact ⟨dotenvMissingMsg, by simp [gemini_api_key_resolution, hc, henv]⟩
  · intro p provider
    rw [hkey]
    simp [summarize_text_gemini, keyTruthy]

/-- C4 (counterexample): `src/main.py` performs no empty-text validation — a
request with `text = ""` and a configured key still invokes the provider once,
contradicting "the provider is invoked zero times for that request". -/
theorem c4_counterexample_provider_called_on_empty_text :
    mainProviderCalls (some "api-key") ⟨"", 50⟩ = 1 :=
  rfl

/-- C4 (amended): only the Streamlit form rejects empty or whitespace-only
text before any provider call (zero invocations, `src/app.py` lines 133/145);
the endpoint passes such text through and invokes the provider once whenever
the key check passes. -/
theorem c4_amended_empty_text_validation (cfg : Bool) (input : String)
    (h : pyStrip input = "") (key : String) (hk : key ≠ "") (p : TextToSummarize) :
    appButtonProviderCalls cfg input = 0 ∧
    mainProviderCalls (some key) p = 1 := by
  constructor
  · cases cfg <;> simp [appButtonProviderCalls, h]
  · simp [mainProviderCalls, keyTruthy, hk]

/-- C5 (counterexample): on Streamlit Cloud with an empty secret store and a
populated local environment (`GOOGLE_API_KEY = "env-key-123"`), resolution
stops with the missing-secret error instead of falling back to the
environment value — the claimed fallback does not exist. -/
theorem c5_counterexample_no_env_fallback_on_cloud :
    gemini_api_key_resolution ⟨"Streamlit/1.0", none, none, [], some "env-key-123"⟩ =
      .stopped secretsMissingMsg ∧
    gemini_api_key_resolution ⟨"Streamlit/1.0", none, none, [], some "env-key-123"⟩ ≠
      .proceed "env-key-123" := by
  exact ⟨by decide, by decide⟩

/-- C5 (amended): credential resolution branches on the deployment
environment instead of falling back — on Streamlit Cloud only the secret
store is consulted (its value wins whatever the environment holds, and a miss
is a hard stop even when the environment holds a value); locally only the
environment variable is consulted (its value wins whatever the secret store
holds). -/
theorem c5_amended_resolution_branches (e : AppEnv) :
    (∀ v, is_streamlit_cloud e = true →
      e.secrets.lookup "GOOGLE_GEMINI_API_KEY" = some v →
      gemini_api_key_resolution e = .proceed v) ∧
    (is_streamlit_cloud e = true →
      e.secrets.lookup "GOOGLE_GEMINI_API_KEY" = none →
      gemini_api_key_resolution e = .stopped secretsMissingMsg) ∧
    (∀ v, is_streamlit_cloud e = false → e.dotenvGoogleApiKey? = some v → v ≠ "" →
      gemini_api_key_resolution e = .proceed v) := by
  refine ⟨?_, ?_, ?_⟩
  · intro v hc hs
    simp [gemini_api_key_resolution, hc, hs]
  · intro hc hs
    simp [gemini_api_key_resolution, hc, hs]
  · intro v hc hv hne
    simp [gemini_api_key_resolution, hc, hv, hne]

/-! ### Witnesses -/

/-- Witness for C7 at a concrete provider reply with padded text. -/
theorem c7_success_trimmed_witness :
    summarize_with_gemini "input text" 75 true
      (fun _ => .reply ⟨["  A concise summary. "], none⟩) =
      pyStrip (ProviderResponse.text ⟨["  A concise summary. "], none⟩) ∧
    classifyOutcome true (.reply ⟨["  A concise summary. "], none⟩) =
      .Success (pyStrip (ProviderResponse.text ⟨["  A concise summary. "], none⟩)) ∧
    summarize_text_gemini (some "key0") ⟨"orig", 75⟩
      (fun _ => .reply ⟨["  A concise summary. "], none⟩) =
      .ok ⟨"orig", pyStrip (ProviderResponse.text ⟨["  A concise summary. "], none⟩)⟩ ∧
    noEdgeWhitespace (pyStrip (ProviderResponse.text ⟨["  A concise summary. "], none⟩)) :=
  c7_success_trimmed ⟨["  A concise summary. "], none⟩ (by decide) (by decide)
    "input text" 75 "key0" (by decide) ⟨"orig", 75⟩

/-- Witness for C8 at a concrete provider reply whose parts are all
whitespace. -/
theorem c8_empty_output_failure_witness :
    summarize_with_gemini "some input" 60 true (fun _ => .reply ⟨["   ", "\t"], none⟩) =
      "Error: Gemini returned an empty summary. The input might be too short or unclear." ∧
    classifyOutcome true (.reply ⟨["   ", "\t"], none⟩) =
      .Failure .EmptyOutput
        "Error: Gemini returned an empty summary. The input might be too short or unclear." ∧
    (∀ s, classifyOutcome true (.reply ⟨["   ", "\t"], none⟩) ≠ .Success s) :=
  c8_empty_output_failure ⟨["   ", "\t"], none⟩ (by decide) (by decide) "some input" 60

/-- Witness for C9 at a concrete partless reply whose block reason carries a
name. -/
theorem c9_blocked_or_unexpected_witness :
    summarize_with_gemini "t0" 75 true
      (fun _ => .reply ⟨[], some ⟨some ⟨some "SAFETY_BLOCK", none⟩⟩⟩) =
      "Error: Content blocked by Gemini due to: " ++
        blockReasonName ⟨some "SAFETY_BLOCK", none⟩ ++ "." ∧
    classifyOutcome true (.reply ⟨[], some ⟨some ⟨some "SAFETY_BLOCK", none⟩⟩⟩) =
      .Failure .Blocked
        ("Error: Content blocked by Gemini due to: " ++
          blockReasonName ⟨some "SAFETY_BLOCK", none⟩ ++ ".") ∧
    containsStr
      ("Error: Content blocked by Gemini due to: " ++
        blockReasonName ⟨some "SAFETY_BLOCK", none⟩ ++ ".")
      (blockReasonName ⟨some "SAFETY_BLOCK", none⟩) :=
  (c9_blocked_or_unexpected ⟨[], some ⟨some ⟨some "SAFETY_BLOCK", none⟩⟩⟩ rfl "t0" 75).1
    ⟨some "SAFETY_BLOCK", none⟩ rfl

/-- Witness for C6 at a concrete in-range request and a successful reply. -/
theorem c6_exactly_one_result_witness :
    summarize_with_gemini "hello" 75 true (fun _ => .reply ⟨["A summary."], none⟩) =
      (classifyOutcome true (.reply ⟨["A summary."], none⟩)).render ∧
    ((classifyOutcome true (.reply ⟨["A summary."], none⟩)).isSuccess = true ↔
      (classifyOutcome true (.reply ⟨["A summary."], none⟩)).isFailure = false) :=
  c6_exactly_one_result "hello" (by decide) 75 (by decide) (.reply ⟨["A summary."], none⟩)

/-- Witness for C10: the unexpected-response 500 raised inside the `try:`
block is itself replaced by the generic 500. -/
theorem c10_handler_failures_become_generic_500_witness :
    summarize_text_gemini (some "k0") ⟨"hi there", 75⟩ (fun _ => .reply ⟨[], none⟩) =
      .error 500 genericDetail :=
  (c10_handler_failures_become_generic_500 (some "k0") ⟨"hi there", 75⟩
    (fun _ => .reply ⟨[], none⟩) (by decide)).1 500
    "Error processing summary from Gemini API: Empty or unexpected response." (by decide)

/-- Witness for the amended C2 at a concrete exception. -/
theorem c2_amended_sanitization_witness :
    summarize_text_gemini (some "k1") ⟨"abc", 75⟩ (fun _ => .exn "TimeoutError: slow") =
      .error 500 genericDetail ∧
    summarize_with_gemini "abc" 75 true (fun _ => .exn "TimeoutError: slow") =
      "Error during summarization: " ++ "TimeoutError: slow" :=
  c2_amended_sanitization "k1" (by decide) ⟨"abc", 75⟩ "TimeoutError: slow" "abc" 75

/-- Witness for the amended C3 at concrete credential-less environments. -/
theorem c3_amended_startup_behavior_witness :
    (∃ msg, gemini_api_key_resolution ⟨"", none, none, [], none⟩ = .stopped msg) ∧
    mainServes ⟨none, false⟩ = true ∧
    mainStartupKey ⟨none, false⟩ = none ∧
    summarize_text_gemini (mainStartupKey ⟨none, false⟩) ⟨"w", 75⟩ (fun _ => .exn "x") =
      .error 500 keyMissingDetail :=
  have h := c3_amended_startup_behavior ⟨"", none, none, [], none⟩ ⟨none, false⟩ rfl rfl rfl
  ⟨h.1, h.2.1, h.2.2.1, h.2.2.2 ⟨"w", 75⟩ (fun _ => .exn "x")⟩

/-- Witness for the amended C4 at a whitespace-only form input and an empty
endpoint text. -/
theorem c4_amended_empty_text_validation_witness :
    appButtonProviderCalls true "   " = 0 ∧
    mainProviderCalls (some "k2") ⟨"", 75⟩ = 1 :=
  c4_amended_empty_text_validation true "   " (by decide) "k2" (by decide) ⟨"", 75⟩

/-- Witness for the amended C5: on Streamlit Cloud with both sources
populated, the secret-store value is the one used. -/
theorem c5_amended_resolution_branches_witness :
    gemini_api_key_resolution
      ⟨"Streamlit/1.0", none, none, [("GOOGLE_GEMINI_API_KEY", "secret-key-9")],
        some "env-key-7"⟩ = .proceed "secret-key-9" :=
  (c5_amended_resolution_branches
    ⟨"Streamlit/1.0", none, none, [("GOOGLE_GEMINI_API_KEY", "secret-key-9")],
      some "env-key-7"⟩).1 "secret-key-9" (by decide) (by decide)

end TextSummarizer
